import Mathlib

/-!
Verification of the everylotbot-chicago repository.

Shallow embedding of the data model and operations:
* `LotRow` / `Store` model the SQLite `lots` table
  (`id TEXT PRIMARY KEY, address TEXT, lat REAL, lon REAL,
    posted_twitter TEXT DEFAULT "0", posted_bluesky TEXT DEFAULT "0",
    floors INTEGER`).
* `selectNext` models the selection logic of `EveryLot.__init__`
  (src/everylot/everylot.py) when no explicit id is given;
  `selectLot` adds the explicit-id path (`SPECIFIC_LOT_QUERY`).
* `mark_as_posted` models `EveryLot.mark_as_posted`.
* `streetviewable_location`, `aim_camera`, `get_streetview_image` model the
  corresponding methods of `EveryLot`; the imagery call is modelled up to the
  request it sends (the HTTP transfer itself is outside the embedding).
* `transform_rows_to_unique_pin10` and `fetch_cook_county_rows` model
  src/data_ingest.py; the network is abstracted as the list of CSV batches
  the server would return for offsets 0, batchSize, 2*batchSize, ...
* `bot_main` models the orchestration in src/everylot/bot.py, with the
  outcomes of the external calls (image fetch, the two publishers) passed in
  as `Except` values.

Numeric REAL columns and Python floats are modelled as `Rat`: every numeric
literal appearing in the code and in the claims is exactly representable, and
none of the operations involved (comparison with a constant, defaulting)
depends on floating-point rounding.
-/

/-- The two posting platforms configured in the code
(`posted_twitter` / `posted_bluesky` columns, `ENABLE_BLUESKY` /
`ENABLE_TWITTER` flags). -/

inductive Platform where
  | twitter
  | bluesky
deriving DecidableEq

/-- One row of the `lots` table.  `address` is nullable in SQLite, hence
`Option String`.  `lat`/`lon` are populated by the ingestion script
(default `0.0`, the "unknown" sentinel).  `floors` is nullable and may be
missing entirely; `float(None)` / `float(<non-numeric>)` raise in
`aim_camera` and are caught there, so `none` models every value on which
`float` fails as well as an absent column. -/

structure LotRow where
  id : String
  address : Option String
  lat : Rat
  lon : Rat
  posted_twitter : String
  posted_bluesky : String
  floors : Option Rat
deriving DecidableEq

/-- The per-platform posted column of a row. -/

def LotRow.posted (r : LotRow) : Platform → String
  | Platform.twitter => r.posted_twitter
  | Platform.bluesky => r.posted_bluesky

/-- Single-row effect of `UPDATE lots SET posted_<p> = v`. -/

def setPosted (r : LotRow) (p : Platform) (v : String) : LotRow :=
  match p with
  | Platform.twitter => { r with posted_twitter := v }
  | Platform.bluesky => { r with posted_bluesky := v }

/-- The `lots` table, in rowid order. -/

abbrev Store := List LotRow

/-- Model of `EveryLot.mark_as_posted` (src/everylot/everylot.py lines 290-303):
`UPDATE lots SET posted_<platform> = ? WHERE id = ?` followed by commit. -/

def mark_as_posted (s : Store) (p : Platform) (lotId v : String) : Store :=
  s.map fun r => if r.id = lotId then setPosted r p v else r

/-- SQLite compares TEXT column values bytewise (BINARY collation); for the
ids of this table that is the lexicographic order on the character list.
Modelled on `String.data` rather than through `String.lt` so that concrete
comparisons evaluate. -/

def idLt (a b : String) : Prop := a.data < b.data

instance (a b : String) : Decidable (idLt a b) := by
  unfold idLt
  infer_instance

/-- Query step `ORDER BY id DESC LIMIT 1` over a list of rows (ties keep the earlier
row; the `id` column is a primary key, so ties do not occur in practice). -/

def argmaxId : Store → Option LotRow
  | [] => none
  | r :: rs =>
    match argmaxId rs with
    | none => some r
    | some m => if idLt m.id r.id then some r else some m

/-- Query step `ORDER BY id ASC LIMIT 1` over a list of rows (ties keep the earlier
row). -/

def argminId : Store → Option LotRow
  | [] => none
  | r :: rs =>
    match argminId rs with
    | none => some r
    | some m => if idLt m.id r.id then some m else some r

/-- The query `SELECT id FROM lots WHERE posted_<p> != "0" ORDER BY id DESC
LIMIT 1` (the most-recently-posted probe in `EveryLot.__init__`; the SQL
literal is written with single quotes in the source). -/

def lastPosted (s : Store) (p : Platform) : Option LotRow :=
  argmaxId (s.filter fun r => decide (r.posted p ≠ "0"))

/-- Model of `NEXT_LOT_QUERY`: `SELECT * FROM lots WHERE id > ? AND
posted_<p> = "0" ORDER BY id ASC LIMIT 1`. -/

def nextUnposted (s : Store) (p : Platform) (startId : String) : Option LotRow :=
  argminId (s.filter fun r => decide (idLt startId r.id ∧ r.posted p = "0"))

/-- Model of `SPECIFIC_LOT_QUERY` and of `SELECT posted_<p> FROM lots WHERE
id = ?`:
lookup by primary key. -/

def findById (s : Store) (pin : String) : Option LotRow :=
  s.find? fun r => decide (r.id = pin)

/-- The selection logic of `EveryLot.__init__` when no explicit id is given
(src/everylot/everylot.py lines 57-97).  `startPin` is
`os.getenv("START_PIN10", "0")`.
1. Probe the last posted lot for the platform; if found, its id is the floor.
2. Otherwise the floor is `startPin`; when `startPin` is not `"0"` and the
   `startPin` row exists with `posted = "0"`, that row itself is returned.
3. Otherwise return the smallest-id unposted row above the floor. -/

def selectNext (s : Store) (p : Platform) (startPin : String) : Option LotRow :=
  match lastPosted s p with
  | some m => nextUnposted s p m.id
  | none =>
    if startPin = "0" then nextUnposted s p startPin
    else
      match findById s startPin with
      | some r0 =>
        if r0.posted p ≠ "0" then nextUnposted s p startPin else some r0
      | none => nextUnposted s p startPin

/-- Full `EveryLot.__init__` selection: an explicit `id_` short-circuits to
`SPECIFIC_LOT_QUERY`, otherwise `selectNext` runs. -/

def selectLot (s : Store) (p : Platform) (startPin : String)
    (explicitId : Option String) : Option LotRow :=
  match explicitId with
  | some i => findById s i
  | none => selectNext s p startPin

/-- The location string handed to the Street View API: either the formatted
address string or the `f"\x7blat\x7d,\x7blon\x7d"` coordinate string (the
coordinate pair is kept unrendered because Python float formatting is
irrelevant to every claim). -/

inductive SVLocation where
  | addr (s : String)
  | coords (lat lon : Rat)
deriving DecidableEq

/-- The coordinate fallback inside `streetviewable_location`
(src/everylot/everylot.py lines 188-196): raise when both coordinates are the
`0.0` sentinel, otherwise return them as a `lat,lon` string.  The raised
Python error is `ValueError(f"No valid location data available: ...")`. -/

def fallbackLocation (lot : LotRow) : Except String SVLocation :=
  if lot.lat = 0 ∧ lot.lon = 0 then
    Except.error "No valid location data available: No address available"
  else Except.ok (SVLocation.coords lot.lat lot.lon)

/-- Model of `EveryLot.streetviewable_location` (src/everylot/everylot.py lines
165-196).  The current code performs no geocoding: a present, non-empty
address is returned as `f"\x7baddress\x7d, CHICAGO, IL"` directly; only a
missing or empty address (`if not address: raise ValueError`, caught by the
`except (KeyError, ValueError)` clause) falls back to the stored
coordinates. -/

def streetviewable_location (lot : LotRow) : Except String SVLocation :=
  match lot.address with
  | some a =>
    if a = "" then fallbackLocation lot
    else Except.ok (SVLocation.addr (a ++ ", CHICAGO, IL"))
  | none => fallbackLocation lot

/-- The `if/elif` chain of `EveryLot.aim_camera` on a successfully converted
`float(floors)` value (src/everylot/everylot.py lines 101-117), including the
branches made unreachable by `elif floors >= 5` coming before them. -/

def aim_camera_num (floors : Rat) : Rat × Rat :=
  if floors = 3 then (72, 10)
  else if floors = 4 then (76, 15)
  else if floors ≥ 5 then (81, 20)
  else if floors = 6 then (86, 10)
  else if floors ≥ 8 then (90, 25)
  else if floors ≥ 10 then (90, 30)
  else (65, 10)

/-- Model of `EveryLot.aim_camera` (src/everylot/everylot.py lines 99-121):
`float(self.lot.get("floors", 2))` (single-quoted in the source) with `TypeError`/`ValueError` caught and
the `(65, 10)` defaults kept.  A missing key defaults to `2` (which the
chain maps to `(65, 10)`); `None` and non-numeric values raise inside
`float` and also yield `(65, 10)`, so both are modelled by `none`. -/

def aim_camera (lot : LotRow) : Rat × Rat :=
  match lot.floors with
  | none => (65, 10)
  | some f => aim_camera_num f

/-- The configuration surface read by `get_streetview_image`:
`STREETVIEW_PITCH` (default `-10`) and `STREETVIEW_ZOOM` (default `0.8`). -/

structure Env where
  streetviewPitch : Option Rat
  streetviewZoom : Option Rat
deriving DecidableEq

/-- The query parameters `get_streetview_image` sends to the Street View
API. -/

structure SVRequest where
  location : SVLocation
  key : String
  size : String
  fov : Rat
  pitch : Rat
  zoom : Rat
deriving DecidableEq

/-- Model of `EveryLot.get_streetview_image`, up to the request it issues
(src/everylot/everylot.py lines 123-147): an empty key raises
`ValueError("Google Street View API key is required")` before anything else;
otherwise the params dict is built from the resolved location, the fov half
of `aim_camera` (`fov, _ = self.aim_camera()`), and the environment pitch
and zoom. -/

def get_streetview_image (lot : LotRow) (env : Env) (key : String) :
    Except String SVRequest :=
  if key = "" then Except.error "Google Street View API key is required"
  else
    match streetviewable_location lot with
    | Except.error e => Except.error e
    | Except.ok loc =>
      Except.ok
        { location := loc
          key := key
          size := "1000x1000"
          fov := (aim_camera lot).1
          pitch := (env.streetviewPitch).getD (-10)
          zoom := (env.streetviewZoom).getD (8 / 10) }

/-- One row of the Cook County assessor CSV, restricted to the columns the
ingestion query selects that the claims mention (the remaining address
columns behave identically to `prop_address_full` and are summarised by
it). -/

structure CCRow where
  pin : String
  pin10 : String
  prop_address_full : String
deriving DecidableEq

/-- Helper for `transform_rows_to_unique_pin10`: the running `seen_pin10`
set is the first argument (the Python code uses a `set`; a list with
membership tests is an equivalent model). -/

def transformAux (seen : List String) : List CCRow → List CCRow
  | [] => []
  | r :: rest =>
    if r.pin10 ∈ seen then transformAux seen rest
    else r :: transformAux (r.pin10 :: seen) rest

/-- Model of `transform_rows_to_unique_pin10` (src/data_ingest.py lines 63-76):
keep the first row per `pin10`, in input order. -/

def transform_rows_to_unique_pin10 (rows : List CCRow) : List CCRow :=
  transformAux [] rows

/-- The pagination loop of `fetch_cook_county_rows` (src/data_ingest.py
lines 25-61), given the batches the server returns for successive offsets:
stop on an empty batch (discarding it) or after a short batch (keeping
it). -/

def fetchPages (batchSize : Nat) : List (List CCRow) → List CCRow
  | [] => []
  | batch :: rest =>
    if batch = [] then []
    else if batch.length < batchSize then batch
    else batch ++ fetchPages batchSize rest

/-- Model of `fetch_cook_county_rows` (src/data_ingest.py lines 11-19 and the loop):
`os.getenv("CHICAGO_DATA_PORTAL_TOKEN")` missing or empty (`if not token`)
raises `ValueError` before any request; otherwise the paginated fetch
runs. -/

def fetch_cook_county_rows (token : Option String) (batchSize : Nat)
    (pages : List (List CCRow)) : Except String (List CCRow) :=
  match token with
  | none => Except.error "CHICAGO_DATA_PORTAL_TOKEN not found in environment"
  | some t =>
    if t = "" then
      Except.error "CHICAGO_DATA_PORTAL_TOKEN not found in environment"
    else Except.ok (fetchPages batchSize pages)

/-- Propositional equality of `Except` values is decidable when it is on both
components; used to evaluate the embedded fallible operations on concrete
inputs. -/

instance {ε α} [DecidableEq ε] [DecidableEq α] : DecidableEq (Except ε α) :=
  fun x y =>
    match x, y with
    | Except.ok a, Except.ok b =>
      if h : a = b then isTrue (by rw [h]) else isFalse (by simp [h])
    | Except.error a, Except.error b =>
      if h : a = b then isTrue (by rw [h]) else isFalse (by simp [h])
    | Except.ok _, Except.error _ => isFalse (by simp)
    | Except.error _, Except.ok _ => isFalse (by simp)

def ccA : CCRow :=
  { pin := "00000000010000", pin10 := "0000000001", prop_address_full := "1 A ST" }

def ccB1 : CCRow :=
  { pin := "00000000020000", pin10 := "0000000002", prop_address_full := "2 B ST" }

def ccB2 : CCRow :=
  { pin := "00000000020001", pin10 := "0000000002", prop_address_full := "2 B ST REAR" }

/-! ### Location resolver, camera framing, imagery request -/


/-- Modelled from the spec (section 4.3 and section 8): the axis-aligned
bounding box of half-width `0.007` degrees centered on the stored
coordinates, inclusive on all four edges.  This definition exists only to
state claim C2; the code under src/ contains no corresponding check (the
geocoding endpoint constant `GCAPI` is defined but never used). -/

def inBoundingBox (lat lon glat glon : Rat) : Prop :=
  lat - 7 / 1000 ≤ glat ∧ glat ≤ lat + 7 / 1000 ∧
    lon - 7 / 1000 ≤ glon ∧ glon ≤ lon + 7 / 1000

instance (lat lon glat glon : Rat) : Decidable (inBoundingBox lat lon glat glon) := by
  unfold inBoundingBox
  infer_instance

def lotChicago : LotRow :=
  { id := "1407115016", address := some "123 Main St", lat := 418781 / 10000,
    lon := -876298 / 10000, posted_twitter := "0", posted_bluesky := "0",
    floors := some 2 }

def lotFloors (f : Option Rat) : LotRow :=
  { id := "1407115016", address := some "123 Main St", lat := 418781 / 10000,
    lon := -876298 / 10000, posted_twitter := "0", posted_bluesky := "0",
    floors := f }

def lotNoAddr : LotRow :=
  { id := "1407115016", address := none, lat := 418781 / 10000,
    lon := -876298 / 10000, posted_twitter := "0", posted_bluesky := "0",
    floors := none }

def envEx : Env := { streetviewPitch := some (-5), streetviewZoom := none }

def reqEx : SVRequest :=
  { location := SVLocation.addr "123 Main St, CHICAGO, IL", key := "KEY",
    size := "1000x1000", fov := 65, pitch := -5, zoom := 8 / 10 }

def lotW1 : LotRow :=
  { id := "001", address := some "1 X ST", lat := 0, lon := 0,
    posted_twitter := "0", posted_bluesky := "0", floors := none }

def lotW2 : LotRow :=
  { id := "002", address := some "2 X ST", lat := 0, lon := 0,
    posted_twitter := "0", posted_bluesky := "0", floors := none }

/-! ### Orchestrator (src/everylot/bot.py) -/


/-- The runtime error raised at the record-update step: `bot.py` line 93
calls `el.mark_as_tweeted` on the comma-joined post ids, but the `EveryLot` class of
src/everylot/everylot.py defines no `mark_as_tweeted` method (only
`mark_as_posted(platform, post_id)`), so Python raises `AttributeError`
there, outside any `try` block. -/

def markAsTweetedAttributeError : String :=
  "AttributeError: EveryLot object has no attribute mark_as_tweeted"

/-- Observable outcome of one `main()` invocation: the early returns, an
uncaught exception carrying the post ids already published when it was
raised, or a clean finish with the published post ids. -/

inductive RunOutcome where
  | noLot
  | notEnabled
  | aborted (postIds : List String) (err : String)
  | done (postIds : List String)
deriving DecidableEq

/-- The function `main` of src/everylot/bot.py, modelled over the outcomes of its
external calls.  `lot` is the selection result; `imageResult` the outcome of
`el.get_streetview_image` (line 52, not wrapped in `try`, so an error
propagates and aborts the run); `blueskyResult`/`twitterResult` the outcomes
of the two `post` calls, each caught independently (lines 68-89).  When
`post_ids` is non-empty the record update calls the nonexistent
`mark_as_tweeted` (line 93) and the run dies with `AttributeError`; in every
path the returned store is the input store, unchanged. -/

def bot_main (s : Store) (lot : Option LotRow)
    (enableBluesky enableTwitter dryRun : Bool)
    (imageResult : Except String Unit)
    (blueskyResult twitterResult : Except String String) : RunOutcome × Store :=
  match lot with
  | none => (RunOutcome.noLot, s)
  | some _ =>
    match imageResult with
    | Except.error e => (RunOutcome.aborted [] e, s)
    | Except.ok _ =>
      if !(enableBluesky || enableTwitter) then (RunOutcome.notEnabled, s)
      else if dryRun then (RunOutcome.done [], s)
      else
        let bskyIds : List String :=
          if enableBluesky then
            match blueskyResult with
            | Except.ok pid => ["bsky:" ++ pid]
            | Except.error _ => []
          else []
        let ids : List String :=
          bskyIds ++
            (if enableTwitter then
              match twitterResult with
              | Except.ok pid => ["twtr:" ++ pid]
              | Except.error _ => []
            else [])
        if ids = [] then (RunOutcome.done [], s)
        else (RunOutcome.aborted ids markAsTweetedAttributeError, s)

/-! ### Properties of the ingestion deduplication -/


theorem transformAux_sublist (seen : List String) (rows : List CCRow) :
    (transformAux seen rows).Sublist rows := by
  induction rows generalizing seen with
  | nil => simp [transformAux]
  | cons x rest ih =>
    simp only [transformAux]
    split
    · exact (ih seen).cons x
    · exact (ih (x.pin10 :: seen)).cons₂ x

theorem transformAux_not_seen (seen : List String) (rows : List CCRow) :
    ∀ r ∈ transformAux seen rows, r.pin10 ∉ seen := by
  induction rows generalizing seen with
  | nil => simp [transformAux]
  | cons x rest ih =>
    simp only [transformAux]
    split
    · exact ih seen
    · intro r hr
      rcases List.mem_cons.mp hr with rfl | hr2
      · assumption
      · have := ih (x.pin10 :: seen) r hr2
        exact fun hs => this (List.mem_cons_of_mem _ hs)

theorem transformAux_find? (seen : List String) (rows : List CCRow) :
    ∀ r ∈ transformAux seen rows,
      rows.find? (fun x => decide (x.pin10 = r.pin10)) = some r := by
  induction rows generalizing seen with
  | nil => simp [transformAux]
  | cons x rest ih =>
    intro r hr
    simp only [transformAux] at hr
    by_cases hx : x.pin10 ∈ seen
    · rw [if_pos hx] at hr
      have hne : ¬(x.pin10 = r.pin10) := by
        intro he
        exact (transformAux_not_seen seen rest r hr) (he ▸ hx)
      rw [List.find?_cons_of_neg _ (by simp [hne]), ih seen r hr]
    · rw [if_neg hx] at hr
      rcases List.mem_cons.mp hr with rfl | hr2
      · rw [List.find?_cons_of_pos _ (by simp)]
      · have hnotin := transformAux_not_seen (x.pin10 :: seen) rest r hr2
        have hne : ¬(x.pin10 = r.pin10) := by
          intro he
          exact hnotin (by simp [he])
        rw [List.find?_cons_of_neg _ (by simp [hne]), ih (x.pin10 :: seen) r hr2]

theorem transformAux_keys (seen : List String) (rows : List CCRow) (key : String)
    (hk : key ∉ seen) (hmem : key ∈ rows.map CCRow.pin10) :
    key ∈ (transformAux seen rows).map CCRow.pin10 := by
  induction rows generalizing seen with
  | nil => simp at hmem
  | cons x rest ih =>
    simp only [List.map_cons, List.mem_cons] at hmem
    simp only [transformAux]
    by_cases hx : x.pin10 ∈ seen
    · rw [if_pos hx]
      rcases hmem with rfl | hmem
      · exact absurd hx hk
      · exact ih seen hk hmem
    · rw [if_neg hx]
      rcases hmem with rfl | hmem
      · simp
      · by_cases hkey : key = x.pin10
        · simp [hkey]
        · have hk2 : key ∉ x.pin10 :: seen := by
            simp [hkey, hk]
          simpa using Or.inr (List.mem_map.mp (ih (x.pin10 :: seen) hk2 hmem))

theorem transformAux_nodup (seen : List String) (rows : List CCRow) :
    ((transformAux seen rows).map CCRow.pin10).Nodup := by
  induction rows generalizing seen with
  | nil => simp [transformAux]
  | cons x rest ih =>
    simp only [transformAux]
    split
    · exact ih seen
    · simp only [List.map_cons, List.nodup_cons]
      refine ⟨fun hmem => ?_, ih (x.pin10 :: seen)⟩
      rcases List.mem_map.mp hmem with ⟨r, hr, hpr⟩
      exact transformAux_not_seen (x.pin10 :: seen) rest r hr (by simp [hpr])

/-- C3: for every input sequence of rows, `transform_rows_to_unique_pin10`
returns exactly one row per distinct coarse (`pin10`) key — the kept keys
are duplicate-free and cover exactly the keys of the input — each kept row equals
the first input row bearing its key, and the kept rows appear in the
relative order of the input (the output is a sublist of the input). -/

theorem dedup_first_per_coarse_key (rows : List CCRow) :
    (transform_rows_to_unique_pin10 rows).Sublist rows ∧
    ((transform_rows_to_unique_pin10 rows).map CCRow.pin10).Nodup ∧
    (∀ key, key ∈ rows.map CCRow.pin10 ↔
        key ∈ (transform_rows_to_unique_pin10 rows).map CCRow.pin10) ∧
    (∀ r ∈ transform_rows_to_unique_pin10 rows,
        rows.find? (fun x => decide (x.pin10 = r.pin10)) = some r) := by
  refine ⟨transformAux_sublist [] rows, transformAux_nodup [] rows, ?_,
    transformAux_find? [] rows⟩
  intro key
  constructor
  · exact fun h => transformAux_keys [] rows key (by simp) h
  · exact fun h => ((transformAux_sublist [] rows).map CCRow.pin10).subset h

theorem dedup_first_per_coarse_key_witness :
    ccB1 ∈ transform_rows_to_unique_pin10 [ccA, ccB1, ccB2] ∧
    [ccA, ccB1, ccB2].find? (fun x => decide (x.pin10 = ccB1.pin10)) = some ccB1 := by
  have h := dedup_first_per_coarse_key [ccA, ccB1, ccB2]
  exact ⟨by decide, h.2.2.2 ccB1 (by decide)⟩

/-- C2 counterexample: at the example given in the spec — stored coordinates
`(41.8781, -87.6298)` and a geocode result of `(42.0, -88.0)`, which lies
outside the `0.007`-degree box — the claim requires the resolver to return
the stored coordinates as a `lat,lon` string, but `streetviewable_location`
returns the formatted address: the code consults no geocoder at all. -/

theorem resolver_ignores_geocode_counterexample :
    ¬ inBoundingBox (418781 / 10000) (-876298 / 10000) 42 (-88) ∧
    streetviewable_location lotChicago =
      Except.ok (SVLocation.addr "123 Main St, CHICAGO, IL") ∧
    streetviewable_location lotChicago ≠
      Except.ok (SVLocation.coords (418781 / 10000) (-876298 / 10000)) := by
  refine ⟨by norm_num [inBoundingBox], rfl, by decide⟩

/-- C2 (amended): for every record whose stored address is present and
non-empty, the location resolver returns the formatted address
`"<address>, CHICAGO, IL"` unconditionally, performing no geocoding lookup
and no bounding-box comparison; the stored coordinates are used only when
the address is missing or empty. -/

theorem resolver_returns_formatted_address (lot : LotRow) (a : String)
    (ha : lot.address = some a) (hne : a ≠ "") :
    streetviewable_location lot =
      Except.ok (SVLocation.addr (a ++ ", CHICAGO, IL")) := by
  simp [streetviewable_location, ha, hne]

theorem resolver_returns_formatted_address_witness :
    (lotChicago.address = some "123 Main St" ∧ "123 Main St" ≠ "") ∧
    streetviewable_location lotChicago =
      Except.ok (SVLocation.addr ("123 Main St" ++ ", CHICAGO, IL")) :=
  ⟨⟨by decide, by decide⟩,
    resolver_returns_formatted_address lotChicago "123 Main St" (by decide)
      (by decide)⟩

/-- C5: evaluation of `aim_camera` as written.  The defaults hold
(`aim(2) = (65, 10)`, `aim(None) = (65, 10)`), but because the branch
`elif floors >= 5` precedes the `== 6`, `>= 8` and `>= 10` branches, every
floor count of five or more yields `(81, 20)`: in particular
`aim(10) = (81, 20)`, not the `(90, 30)` required by the claim and by
`tests/test_everylot.py::test_aim_camera`, and the buckets at 6, 8 and 10+
floors are unreachable. -/

theorem aim_camera_bucket_divergence :
    aim_camera (lotFloors (some 2)) = (65, 10) ∧
    aim_camera (lotFloors none) = (65, 10) ∧
    aim_camera (lotFloors (some 3)) = (72, 10) ∧
    aim_camera (lotFloors (some 4)) = (76, 15) ∧
    aim_camera (lotFloors (some 5)) = (81, 20) ∧
    aim_camera (lotFloors (some 6)) = (81, 20) ∧
    aim_camera (lotFloors (some 8)) = (81, 20) ∧
    aim_camera (lotFloors (some 10)) = (81, 20) ∧
    aim_camera (lotFloors (some 10)) ≠ (90, 30) := by
  refine ⟨by decide, by decide, by decide, by decide, by decide, by decide,
    by decide, by decide, by decide⟩

/-- C7: whenever the resolver fails to produce a formatted address — in this
code the only such failure is a missing or empty `address` field — it
returns the stored coordinates as a `lat,lon` string, unless both stored
coordinates are the `0.0` sentinel, in which case it raises the terminal
no-location error (a Python `ValueError`, called `NoLocationError` in the spec)
instead of returning a location. -/

theorem resolver_failure_fallback (lot : LotRow)
    (ha : lot.address = none ∨ lot.address = some "") :
    (¬(lot.lat = 0 ∧ lot.lon = 0) →
      streetviewable_location lot =
        Except.ok (SVLocation.coords lot.lat lot.lon)) ∧
    ((lot.lat = 0 ∧ lot.lon = 0) →
      streetviewable_location lot =
        Except.error "No valid location data available: No address available") := by
  have hfb : streetviewable_location lot = fallbackLocation lot := by
    rcases ha with h | h <;> simp [streetviewable_location, h]
  constructor
  · intro hne
    rw [hfb]
    simp [fallbackLocation, hne]
  · intro hz
    rw [hfb]
    simp [fallbackLocation, hz]

theorem resolver_failure_fallback_witness :
    (lotNoAddr.address = none ∨ lotNoAddr.address = some "") ∧
    streetviewable_location lotNoAddr =
      Except.ok (SVLocation.coords (418781 / 10000) (-876298 / 10000)) :=
  ⟨Or.inl rfl,
    ((resolver_failure_fallback lotNoAddr (Or.inl rfl)).1
      (by norm_num [lotNoAddr]))⟩

/-- C8: both external fetches check their credential before doing anything
else.  With the data-portal token absent the ingestion fetch returns the
configuration error for every possible server behaviour (`pages`) — no
request is issued — and with an empty API key the imagery fetch returns its
configuration error for every record and environment, before resolving a
location or building a request. -/

theorem credentials_checked_before_any_request :
    (∀ batchSize pages, fetch_cook_county_rows none batchSize pages =
        Except.error "CHICAGO_DATA_PORTAL_TOKEN not found in environment") ∧
    (∀ lot env, get_streetview_image lot env "" =
        Except.error "Google Street View API key is required") := by
  constructor
  · intro b p
    rfl
  · intro lot env
    simp [get_streetview_image]

/-- C10: every imagery request that is actually issued carries
`pitch = STREETVIEW_PITCH` (default `-10`) straight from the environment —
the pitch computed by `aim_camera` is discarded (`fov, _ =
self.aim_camera()`) and only its field-of-view component reaches the
request. -/

theorem pitch_always_from_env (lot : LotRow) (env : Env) (key : String)
    (req : SVRequest) (h : get_streetview_image lot env key = Except.ok req) :
    req.pitch = (env.streetviewPitch).getD (-10) ∧
    req.fov = (aim_camera lot).1 := by
  by_cases hk : key = ""
  · rw [get_streetview_image, if_pos hk] at h
    simp at h
  · rw [get_streetview_image, if_neg hk] at h
    cases hloc : streetviewable_location lot with
    | error e =>
      rw [hloc] at h
      simp at h
    | ok loc =>
      rw [hloc] at h
      injection h with h2
      subst h2
      exact ⟨rfl, rfl⟩

theorem pitch_always_from_env_witness :
    get_streetview_image lotChicago envEx "KEY" = Except.ok reqEx ∧
    reqEx.pitch = (envEx.streetviewPitch).getD (-10) ∧
    reqEx.fov = (aim_camera lotChicago).1 := by
  have h : get_streetview_image lotChicago envEx "KEY" = Except.ok reqEx := rfl
  exact ⟨h, pitch_always_from_env lotChicago envEx "KEY" reqEx h⟩

/-! ### Selection and record update -/


theorem setPosted_id (r : LotRow) (p : Platform) (v : String) :
    (setPosted r p v).id = r.id := by
  cases p <;> rfl

theorem setPosted_posted_self (r : LotRow) (p : Platform) (v : String) :
    (setPosted r p v).posted p = v := by
  cases p <;> rfl

theorem setPosted_posted_other (r : LotRow) (p q : Platform) (v : String)
    (h : q ≠ p) : (setPosted r p v).posted q = r.posted q := by
  cases p <;> cases q <;> first | rfl | exact absurd rfl h

theorem setPosted_fields (r : LotRow) (p : Platform) (v : String) :
    (setPosted r p v).id = r.id ∧ (setPosted r p v).address = r.address ∧
    (setPosted r p v).lat = r.lat ∧ (setPosted r p v).lon = r.lon ∧
    (setPosted r p v).floors = r.floors := by
  cases p <;> exact ⟨rfl, rfl, rfl, rfl, rfl⟩

theorem argminId_mem (l : Store) : ∀ r : LotRow, argminId l = some r → r ∈ l := by
  induction l with
  | nil =>
    intro r h
    simp [argminId] at h
  | cons x xs ih =>
    intro r h
    simp only [argminId] at h
    split at h
    · cases h
      exact List.mem_cons_self _ _
    · rename_i m hm
      split at h
      · cases h
        exact List.mem_cons_of_mem _ (ih _ hm)
      · cases h
        exact List.mem_cons_self _ _

theorem argmaxId_cons_ne_none (x : LotRow) (xs : Store) :
    argmaxId (x :: xs) ≠ none := by
  simp only [argmaxId]
  split
  · simp
  · split <;> simp

theorem argmaxId_ne_none_of_mem (l : Store) (r : LotRow) (h : r ∈ l) :
    argmaxId l ≠ none := by
  cases l with
  | nil => simp at h
  | cons x xs => exact argmaxId_cons_ne_none x xs

/-- C1: selection is monotonic per platform.  After `mark_as_posted` writes a
non-`"0"` post identifier `v` into the `posted_p` field of record `k`, every
selection without an explicit id for platform `p` returns a record with an id
different from `k` (or none): the marked row makes the "last posted" probe
succeed, and the follow-up query only admits rows whose `posted_p` is still
`"0"`.  Repeated selections from the same store state trivially agree, the
selection being a deterministic function of the store. -/

theorem selection_monotonic (s : Store) (p : Platform) (startPin k v : String)
    (hk : k ∈ s.map LotRow.id) (hv : v ≠ "0") :
    (∀ r, selectNext (mark_as_posted s p k v) p startPin = some r →
        r.id ≠ k) ∧
    (∀ t : Store, selectNext t p startPin = selectNext t p startPin) := by
  refine ⟨?_, fun t => rfl⟩
  intro r hsel hrk
  have hall : ∀ x ∈ mark_as_posted s p k v, x.id = k → x.posted p = v := by
    intro x hx hxk
    rcases List.mem_map.mp hx with ⟨y, hy, hxy⟩
    by_cases hyk : y.id = k
    · rw [← hxy]
      simp only [if_pos hyk]
      exact setPosted_posted_self y p v
    · rw [if_neg hyk] at hxy
      subst hxy
      exact absurd hxk hyk
  rcases List.mem_map.mp hk with ⟨y, hy, hyk⟩
  have hmem2 : setPosted y p v ∈ mark_as_posted s p k v := by
    have hmem : (if y.id = k then setPosted y p v else y) ∈
        mark_as_posted s p k v := List.mem_map_of_mem _ hy
    rwa [if_pos hyk] at hmem
  have hpf : setPosted y p v ∈ (mark_as_posted s p k v).filter
      (fun x => decide (x.posted p ≠ "0")) := by
    refine List.mem_filter.mpr ⟨hmem2, ?_⟩
    exact decide_eq_true (by rw [setPosted_posted_self]; exact hv)
  have hsome : lastPosted (mark_as_posted s p k v) p ≠ none :=
    argmaxId_ne_none_of_mem _ _ hpf
  cases hlp : lastPosted (mark_as_posted s p k v) p with
  | none => exact hsome hlp
  | some m =>
    have hnext : nextUnposted (mark_as_posted s p k v) p m.id = some r := by
      have hs2 := hsel
      unfold selectNext at hs2
      rw [hlp] at hs2
      exact hs2
    have hrmem := argminId_mem _ _ hnext
    rcases List.mem_filter.mp hrmem with ⟨hrs, hpred⟩
    have hprop := of_decide_eq_true hpred
    have hrv : r.posted p = v := hall r hrs hrk
    rw [hprop.2] at hrv
    exact hv hrv.symm

theorem selection_monotonic_witness :
    ("001" ∈ [lotW1, lotW2].map LotRow.id ∧ "x1" ≠ "0") ∧ lotW2.id ≠ "001" := by
  have h := selection_monotonic [lotW1, lotW2] Platform.bluesky "0" "001" "x1"
    (by decide) (by decide)
  exact ⟨⟨by decide, by decide⟩, h.1 lotW2 (by decide)⟩

/-- C9: `mark_as_posted p v` is a frame-preserving update: every row whose id
differs from the targeted id is left entirely unchanged, and the targeted
row (unique, the id being the primary key of the table) keeps its `id`,
`address`, `lat`, `lon`, `floors` and the posted column of the other platform,
with only `posted_p` set to `v`. -/

theorem mark_as_posted_frame (s : Store) (p : Platform) (lotId v : String) :
    List.Forall₂ (fun r r2 =>
      (r.id ≠ lotId → r2 = r) ∧
      (r.id = lotId → r2.id = r.id ∧ r2.address = r.address ∧
        r2.lat = r.lat ∧ r2.lon = r.lon ∧ r2.floors = r.floors ∧
        r2.posted p = v ∧ ∀ q, q ≠ p → r2.posted q = r.posted q))
      s (mark_as_posted s p lotId v) := by
  rw [mark_as_posted, List.forall₂_map_right_iff]
  refine List.forall₂_same.mpr ?_
  intro x hx
  by_cases hid : x.id = lotId
  · refine ⟨fun hne => absurd hid hne, fun _ => ?_⟩
    rw [if_pos hid]
    refine ⟨setPosted_id x p v, ?_, ?_, ?_, ?_,
      setPosted_posted_self x p v, fun q hq => setPosted_posted_other x p q v hq⟩
    · cases p <;> rfl
    · cases p <;> rfl
    · cases p <;> rfl
    · cases p <;> rfl
  · refine ⟨fun _ => ?_, fun he => absurd he hid⟩
    rw [if_neg hid]

theorem mark_as_posted_frame_witness :
    (setPosted lotW1 Platform.twitter "t9").posted Platform.twitter = "t9" ∧
    lotW2.id ≠ "001" := by
  have h := mark_as_posted_frame [lotW1, lotW2] Platform.twitter "001" "t9"
  cases h with
  | cons hhead htail =>
    refine ⟨?_, by decide⟩
    exact (hhead.2 rfl).2.2.2.2.2.1

/-- C4: evaluation of the orchestrator.  Publish failures are caught
independently (with Bluesky failing, Twitter still publishes and its id
`twtr:T1` is collected), and with zero successes no record update occurs;
but whenever at least one platform succeeds the record-update step calls
the nonexistent `mark_as_tweeted` and the run dies with `AttributeError` —
no `posted_twitter`/`posted_bluesky` field is ever written (the store comes
back unchanged), contrary to the claim and to
`tests/test_bot.py::test_main_successful_run`. -/

theorem record_update_never_writes_per_platform :
    bot_main [lotW1, lotW2] (some lotW1) true true false (Except.ok ())
        (Except.ok "B1") (Except.ok "T1") =
      (RunOutcome.aborted ["bsky:B1", "twtr:T1"] markAsTweetedAttributeError,
        [lotW1, lotW2]) ∧
    bot_main [lotW1, lotW2] (some lotW1) true true false (Except.ok ())
        (Except.error "PublishError") (Except.ok "T1") =
      (RunOutcome.aborted ["twtr:T1"] markAsTweetedAttributeError,
        [lotW1, lotW2]) ∧
    bot_main [lotW1, lotW2] (some lotW1) true true false (Except.ok ())
        (Except.error "PublishError") (Except.error "PublishError") =
      (RunOutcome.done [], [lotW1, lotW2]) :=
  ⟨rfl, rfl, rfl⟩

/-- C6 counterexample: with a selected lot, both platforms enabled and both
publishers ready to succeed, a failing image fetch makes the run abort with
the propagated error and an empty list of published posts — it does not
proceed to a text-only publish as the claim requires. -/

theorem image_failure_aborts_counterexample :
    bot_main [lotW1, lotW2] (some lotW1) true true false
        (Except.error "UpstreamError") (Except.ok "B1") (Except.ok "T1") =
      (RunOutcome.aborted [] "UpstreamError", [lotW1, lotW2]) ∧
    RunOutcome.aborted ([] : List String) "UpstreamError" ≠
      RunOutcome.done ["bsky:B1", "twtr:T1"] :=
  ⟨rfl, by decide⟩

/-- C6 (amended): a failure of the image fetch is fatal to the run: the
exception from `el.get_streetview_image` (not wrapped in any `try`)
propagates out of `main`, so no post is composed or published on any
platform, no record update happens, and the store is unchanged — whatever
the platform flags, dry-run flag and publisher outcomes. -/

theorem image_failure_aborts (s : Store) (lot : LotRow)
    (enableBluesky enableTwitter dryRun : Bool) (e : String)
    (blueskyResult twitterResult : Except String String) :
    bot_main s (some lot) enableBluesky enableTwitter dryRun
        (Except.error e) blueskyResult twitterResult =
      (RunOutcome.aborted [] e, s) := rfl
